import Mathlib

/-!
A shallow embedding of `src/kudu/master/master_service.cc` (the Kudu master's
RPC service implementation) together with proofs about its externally
observable behaviour.

Each RPC handler is translated into a pure Lean function.  External
collaborators whose code is not part of this repository snapshot
(catalog manager delegates, the certificate authority, the token signer)
are passed in as function-valued parameters, so a theorem quantifying over
them covers every possible behaviour of the collaborator.  Stateful pieces
(the tablet-server registry) are threaded explicitly.  The RPC context'
`RespondSuccess` / `RespondFailure` calls become an explicit `RpcResult`
value in each handler's outcome.
-/

namespace KuduMaster

/-- Shallow embedding of `kudu::Status`: either OK, a NotFound error, or any
other kind of error (all non-NotFound failure kinds are collapsed into
`err`, since the service code only ever branches on `ok()` and
`IsNotFound()`). -/
inductive Status where
  | ok
  | notFound (msg : String)
  | err (msg : String)
deriving Repr, DecidableEq

/-- `Status::ok()`. -/
def Status.isOk : Status → Bool
  | .ok => true
  | _ => false

/-- `Status::IsNotFound()`. -/
def Status.IsNotFound : Status → Bool
  | .notFound _ => true
  | _ => false

/-- `Status::CloneAndPrepend(msg)`: prepends context to the message of a
non-OK status. -/
def Status.CloneAndPrepend : Status → String → Status
  | .ok, _ => .ok
  | .notFound m, p => .notFound (p ++ ": " ++ m)
  | .err m, p => .err (p ++ ": " ++ m)

/-- The transport-level outcome of a call: `rpc->RespondSuccess()` or
`rpc->RespondFailure(s)`. -/
inductive RpcResult where
  | success
  | failure (s : Status)
deriving Repr, DecidableEq

/-- Error codes of `MasterErrorPB::Code` used by this service. -/
inductive MasterErrorCode where
  | UNKNOWN_ERROR
  | CATALOG_MANAGER_NOT_INITIALIZED
  | NOT_THE_LEADER
deriving Repr, DecidableEq

/-- `MasterErrorPB`: a typed error code plus the embedded `AppStatusPB`
(which we keep as the originating `Status`). -/
structure MasterErrorPB where
  code : MasterErrorCode
  status : Status
deriving Repr, DecidableEq

/-- The generic shape of a master response protobuf: an optional
application-specific `error` field plus a call-specific payload. -/
structure MasterResponse (α : Type) where
  error : Option MasterErrorPB
  payload : α
deriving Repr, DecidableEq

/-- `CatalogManager::ScopedLeaderSharedLock`, reduced to the two facts the
service reads from it: whether the catalog manager is initialized, and the
leader status (`leader_status().ok()` means this process is leader). -/
structure ScopedLeaderSharedLock where
  catalogInitialized : Bool
  leaderStatus : Status
deriving Repr, DecidableEq

/-- `l.leader_status().ok()` as used at `master_service.cc:140` and `:435`. -/
def ScopedLeaderSharedLock.isLeader (l : ScopedLeaderSharedLock) : Bool :=
  l.leaderStatus.isOk

/-- Modelled from the spec: `ScopedLeaderSharedLock::CheckIsInitializedOrRespond`
lives in `catalog_manager.cc`, which is not part of this snapshot.  Per spec
§4.1 (*InitializedOnly*): if not initialized, a structured "not initialized"
error is written into the response and the call aborts; otherwise the call
proceeds regardless of leadership.  Returns the structured error to write,
or `none` when the call may proceed. -/
def checkIsInitializedGate (l : ScopedLeaderSharedLock) : Option MasterErrorPB :=
  if l.catalogInitialized then
    none
  else
    some ⟨.CATALOG_MANAGER_NOT_INITIALIZED, .err "catalog manager has not been initialized"⟩

/-- Modelled from the spec:
`ScopedLeaderSharedLock::CheckIsInitializedAndIsLeaderOrRespond` lives in
`catalog_manager.cc`, which is not part of this snapshot.  Per spec §4.1
(*InitializedAndLeader*): additionally requires leader = true; if false, a
structured "not the leader" error is written and the call aborts.  Returns
the structured error to write, or `none` when the call may proceed. -/
def checkIsInitializedAndIsLeaderGate (l : ScopedLeaderSharedLock) :
    Option MasterErrorPB :=
  match checkIsInitializedGate l with
  | some e => some e
  | none =>
    if l.isLeader then none
    else some ⟨.NOT_THE_LEADER, l.leaderStatus⟩

/-- `CheckRespErrorOrSetUnknown` (`master_service.cc:87-93`): if `s` is not
OK and `resp` has no application-specific error set, set the error field of
`resp` from `s` with code `UNKNOWN_ERROR`. -/
def CheckRespErrorOrSetUnknown (s : Status) (resp : MasterResponse α) :
    MasterResponse α :=
  if !s.isOk && resp.error.isNone then
    { resp with error := some ⟨.UNKNOWN_ERROR, s⟩ }
  else
    resp

/-- A catalog-manager delegate for a uniform metadata forwarder call: given
the catalog state and the response under construction, it returns its
`Status`, the new catalog state, and the (possibly error-annotated)
response.  Quantifying over this function covers every behaviour of the
external catalog manager. -/
def CatalogDelegate (σ α : Type) := σ → MasterResponse α → Status × σ × MasterResponse α

/-- The outcome of a uniform metadata forwarder call: final response,
transport-level result, final catalog state, and whether the delegate was
invoked at all. -/
structure ForwardOutcome (σ α : Type) where
  resp : MasterResponse α
  rpc : RpcResult
  catalog : σ
  delegated : Bool
deriving Repr, DecidableEq

/-- The shared gate-then-delegate-then-normalize shape of the eight uniform
metadata forwarder handlers (`CreateTable`, `IsCreateTableDone`,
`DeleteTable`, `AlterTable`, `IsAlterTableDone`, `ListTables`,
`GetTableLocations`, `GetTableSchema`; `master_service.cc:256-361`):
acquire the `ScopedLeaderSharedLock`, run
`CheckIsInitializedAndIsLeaderOrRespond` (early return on failure),
delegate to the catalog manager, apply `CheckRespErrorOrSetUnknown`, and
`RespondSuccess` unconditionally. -/
def forwardCatalogCall (l : ScopedLeaderSharedLock) (st : σ)
    (delegate : CatalogDelegate σ α) (resp0 : MasterResponse α) :
    ForwardOutcome σ α :=
  match checkIsInitializedAndIsLeaderGate l with
  | some e => ⟨{ resp0 with error := some e }, .success, st, false⟩
  | none =>
    match delegate st resp0 with
    | (s, st2, r) => ⟨CheckRespErrorOrSetUnknown s r, .success, st2, true⟩

namespace MasterServiceImpl

/-- `MasterServiceImpl::CreateTable` (`master_service.cc:256-267`). -/
def CreateTable (l : ScopedLeaderSharedLock) (st : σ)
    (delegate : CatalogDelegate σ α) (resp0 : MasterResponse α) :
    ForwardOutcome σ α :=
  forwardCatalogCall l st delegate resp0

/-- `MasterServiceImpl::IsCreateTableDone` (`master_service.cc:269-280`). -/
def IsCreateTableDone (l : ScopedLeaderSharedLock) (st : σ)
    (delegate : CatalogDelegate σ α) (resp0 : MasterResponse α) :
    ForwardOutcome σ α :=
  forwardCatalogCall l st delegate resp0

/-- `MasterServiceImpl::DeleteTable` (`master_service.cc:282-293`). -/
def DeleteTable (l : ScopedLeaderSharedLock) (st : σ)
    (delegate : CatalogDelegate σ α) (resp0 : MasterResponse α) :
    ForwardOutcome σ α :=
  forwardCatalogCall l st delegate resp0

/-- `MasterServiceImpl::AlterTable` (`master_service.cc:295-306`). -/
def AlterTable (l : ScopedLeaderSharedLock) (st : σ)
    (delegate : CatalogDelegate σ α) (resp0 : MasterResponse α) :
    ForwardOutcome σ α :=
  forwardCatalogCall l st delegate resp0

/-- `MasterServiceImpl::IsAlterTableDone` (`master_service.cc:308-319`). -/
def IsAlterTableDone (l : ScopedLeaderSharedLock) (st : σ)
    (delegate : CatalogDelegate σ α) (resp0 : MasterResponse α) :
    ForwardOutcome σ α :=
  forwardCatalogCall l st delegate resp0

/-- `MasterServiceImpl::ListTables` (`master_service.cc:321-332`). -/
def ListTables (l : ScopedLeaderSharedLock) (st : σ)
    (delegate : CatalogDelegate σ α) (resp0 : MasterResponse α) :
    ForwardOutcome σ α :=
  forwardCatalogCall l st delegate resp0

/-- `MasterServiceImpl::GetTableLocations` (`master_service.cc:334-348`).
The optional injected latency (`SleepFor`) has no observable effect on the
response and is not modelled. -/
def GetTableLocations (l : ScopedLeaderSharedLock) (st : σ)
    (delegate : CatalogDelegate σ α) (resp0 : MasterResponse α) :
    ForwardOutcome σ α :=
  forwardCatalogCall l st delegate resp0

/-- `MasterServiceImpl::GetTableSchema` (`master_service.cc:350-361`). -/
def GetTableSchema (l : ScopedLeaderSharedLock) (st : σ)
    (delegate : CatalogDelegate σ α) (resp0 : MasterResponse α) :
    ForwardOutcome σ α :=
  forwardCatalogCall l st delegate resp0

end MasterServiceImpl

/-- One entry of `GetTabletLocationsResponsePB::Error`: the tablet id that
failed to resolve plus the failure status (`master_service.cc:247-249`). -/
structure TabletLocationsError where
  tabletId : String
  status : Status
deriving Repr, DecidableEq

/-- The repeated fields of `GetTabletLocationsResponsePB`: resolved
locations (kept abstract as `L`, the contents of one `TabletLocationsPB`)
and per-id errors. -/
structure TabletLocationsPayload (L : Type) where
  tabletLocations : List L
  errors : List TabletLocationsError
deriving Repr, DecidableEq

/-- The outcome of a `GetTabletLocations` call: response, transport result,
and the list of tablet ids that were actually handed to the catalog
manager's lookup (in order), recording which per-id delegations occurred. -/
structure TabletLocationsOutcome (L : Type) where
  resp : MasterResponse (TabletLocationsPayload L)
  rpc : RpcResult
  lookedUp : List String
deriving Repr, DecidableEq

/-- One iteration of the lookup loop in `MasterServiceImpl::GetTabletLocations`
(`master_service.cc:240-251`): `add_tablet_locations()` first, delegate the
lookup, and on failure `RemoveLast()` the location entry and append a
per-id error carrying the tablet id and status. -/
def getTabletLocationsStep (lookup : String → Status × L)
    (acc : TabletLocationsPayload L × List String) (tabletId : String) :
    TabletLocationsPayload L × List String :=
  let (s, locsPb) := lookup tabletId
  let withLoc : TabletLocationsPayload L :=
    { acc.1 with tabletLocations := acc.1.tabletLocations ++ [locsPb] }
  let acc1 :=
    if s.isOk then withLoc
    else { tabletLocations := withLoc.tabletLocations.dropLast,
           errors := withLoc.errors ++ [⟨tabletId, s⟩] }
  (acc1, acc.2 ++ [tabletId])

/-- `MasterServiceImpl::GetTabletLocations` (`master_service.cc:226-254`):
gate on InitializedAndLeader, then resolve each requested tablet id
independently via the catalog manager (`lookup` models
`CatalogManager::GetTabletLocations`, returning the status and the
`TabletLocationsPB` contents it filled in), and `RespondSuccess`.  The
optional injected latency (`SleepFor`) has no observable effect on the
response and is not modelled. -/
def MasterServiceImpl.GetTabletLocations (l : ScopedLeaderSharedLock)
    (lookup : String → Status × L) (tabletIds : List String) :
    TabletLocationsOutcome L :=
  match checkIsInitializedAndIsLeaderGate l with
  | some e => ⟨⟨some e, ⟨[], []⟩⟩, .success, []⟩
  | none =>
    let r := tabletIds.foldl (getTabletLocationsStep lookup) (⟨[], []⟩, [])
    ⟨⟨none, r.1⟩, .success, r.2⟩

/-! ## The heartbeat protocol (`MasterServiceImpl::TSHeartbeat`) -/

/-- `NodeInstancePB`: a stable permanent identifier plus a per-start
sequence number. -/
structure NodeInstancePB where
  permanentUuid : String
  instanceSeqno : Nat
deriving Repr, DecidableEq

/-- `ServerRegistrationPB`: a worker's registration info (network location
and software metadata). -/
structure ServerRegistrationPB where
  rpcAddresses : List String
  softwareVersion : String
deriving Repr, DecidableEq

/-- `TSDescriptor`: one registered tablet server, with its immutable-ish
registration info and the mutable soft state refreshed by heartbeats. -/
structure TSDescriptor where
  permanentUuid : String
  latestSeqno : Nat
  registration : ServerRegistrationPB
  lastHeartbeat : Nat
  numLiveReplicas : Nat
deriving Repr, DecidableEq

/-- Modelled from the spec: `TSDescriptor::UpdateHeartbeatTime` lives in
`ts_descriptor.cc`, which is not part of this snapshot.  Per spec §4.2 step
3 it refreshes the last-heartbeat timestamp (and nothing else). -/
def TSDescriptor.UpdateHeartbeatTime (d : TSDescriptor) (now : Nat) :
    TSDescriptor :=
  { d with lastHeartbeat := now }

/-- Modelled from the spec: `TSDescriptor::set_num_live_replicas` lives in
`ts_descriptor.h`, which is not part of this snapshot.  It sets the
live-replica count (and nothing else). -/
def TSDescriptor.setNumLiveReplicas (d : TSDescriptor) (n : Nat) :
    TSDescriptor :=
  { d with numLiveReplicas := n }

/-- The tablet-server registry owned by `TSManager`, keyed by permanent
uuid. -/
abbrev TSManager := List TSDescriptor

/-- Modelled from the spec: `TSManager::LookupTS` lives in `ts_manager.cc`,
which is not part of this snapshot.  Per spec §4.2 transition 2: lookup by
instance id; an identifier never registered is NotFound; any other lookup
failure (here: the presented sequence number is older than the registered
one) is a different error, surfaced by the caller as a transport-level
failure. -/
def TSManager.LookupTS (m : TSManager) (inst : NodeInstancePB) :
    Except Status TSDescriptor :=
  match m.find? (fun d => d.permanentUuid == inst.permanentUuid) with
  | none => .error (.notFound "unknown tserver instance")
  | some d =>
    if inst.instanceSeqno < d.latestSeqno then
      .error (.err "instance seqno expired")
    else
      .ok d

/-- Modelled from the spec: `TSManager::RegisterTS` lives in
`ts_manager.cc`, which is not part of this snapshot.  Per spec §4.2
transition 1 and the §3 registry invariant: create-or-replace the
descriptor for the instance identifier, replacing registration info and
resetting soft state; a registration presenting a sequence number older
than the registered one fails. -/
def TSManager.RegisterTS (m : TSManager) (inst : NodeInstancePB)
    (reg : ServerRegistrationPB) : Except Status (TSManager × TSDescriptor) :=
  let fresh : TSDescriptor :=
    { permanentUuid := inst.permanentUuid, latestSeqno := inst.instanceSeqno,
      registration := reg, lastHeartbeat := 0, numLiveReplicas := 0 }
  match m.find? (fun d => d.permanentUuid == inst.permanentUuid) with
  | none => .ok (m ++ [fresh], fresh)
  | some d =>
    if inst.instanceSeqno < d.latestSeqno then
      .error (.err "registration seqno expired")
    else
      .ok (m.map (fun e => if e.permanentUuid == inst.permanentUuid then fresh else e),
           fresh)

/-- A `TSDescriptor` handle is shared with the registry (a
`shared_ptr` into it), so a mutation through the handle is visible in the
registry: write the updated descriptor back over the entry with the same
permanent uuid. -/
def TSManager.writeBack (m : TSManager) (d : TSDescriptor) : TSManager :=
  m.map (fun e => if e.permanentUuid == d.permanentUuid then d else e)

/-- `TSHeartbeatRequestPB`, with the fields `TSHeartbeat` reads.  The
tablet report and the CSR are kept abstract as strings (their contents are
only handed through to external collaborators). -/
structure TSHeartbeatRequestPB where
  tsInstance : NodeInstancePB
  registration : Option ServerRegistrationPB
  numLiveTablets : Nat
  tabletReport : Option String
  csrDer : Option String
  latestTskSeqNum : Option Nat
deriving Repr, DecidableEq

/-- `TSHeartbeatResponsePB`, with the fields `TSHeartbeat` writes.
`needsReregister` and `needsFullTabletReport` default to `false` as proto3
optional-with-default fields do. -/
structure TSHeartbeatResponsePB where
  error : Option MasterErrorPB
  masterInstance : Option NodeInstancePB
  leaderMaster : Option Bool
  needsReregister : Bool
  needsFullTabletReport : Bool
  tabletReport : Option String
  signedCertDer : Option String
  caCertDer : List String
  tsks : List String
deriving Repr, DecidableEq

/-- The all-unset `TSHeartbeatResponsePB`. -/
def TSHeartbeatResponsePB.empty : TSHeartbeatResponsePB :=
  ⟨none, none, none, false, false, none, none, [], []⟩

/-- The outcome of a heartbeat: response, transport result, final registry
state, and whether the tablet report / the CSR were delegated to the
catalog manager / the certificate authority. -/
structure HeartbeatOutcome where
  resp : TSHeartbeatResponsePB
  rpc : RpcResult
  registry : TSManager
  reportDelegated : Bool
  csrDelegated : Bool
deriving Repr, DecidableEq

/-- The environment of a heartbeat call: the master's own identity, the
current time, and the external collaborators (catalog manager's report
processor, certificate authority, token verifier's key export), plus the
`--master_non_leader_masters_propagate_tsk` test flag. -/
structure HeartbeatEnv where
  masterInstance : NodeInstancePB
  now : Nat
  remoteUser : String
  processTabletReport : TSDescriptor → String → Status × String
  signServerCSR : String → String → Status × String
  caCertDer : String
  exportKeys : Nat → List String
  flagNonLeaderPropagateTsk : Bool

/-- Step 7 of `TSHeartbeat` (`master_service.cc:210-223`): only leaders
(or any master when the test-only flag is set) export the public signing
keys newer than the reported watermark; then `RespondSuccess`. -/
def heartbeatStep7 (env : HeartbeatEnv) (isLeader : Bool)
    (registry : TSManager) (req : TSHeartbeatRequestPB)
    (resp : TSHeartbeatResponsePB) (reportDel csrDel : Bool) :
    HeartbeatOutcome :=
  match req.latestTskSeqNum with
  | some seq =>
    if isLeader || env.flagNonLeaderPropagateTsk then
      ⟨{ resp with tsks := resp.tsks ++ env.exportKeys seq }, .success,
        registry, reportDel, csrDel⟩
    else
      ⟨resp, .success, registry, reportDel, csrDel⟩
  | none => ⟨resp, .success, registry, reportDel, csrDel⟩

/-- Step 6 of `TSHeartbeat` (`master_service.cc:196-208`): only leaders
sign a CSR; a signing failure is a transport-level failure prefixed
"invalid CSR"; on success the signed certificate and the CA's own
certificate are attached. -/
def heartbeatStep6 (env : HeartbeatEnv) (isLeader : Bool)
    (registry : TSManager) (req : TSHeartbeatRequestPB)
    (resp : TSHeartbeatResponsePB) (reportDel : Bool) : HeartbeatOutcome :=
  match req.csrDer, isLeader with
  | some csr, true =>
    let (s, cert) := env.signServerCSR csr env.remoteUser
    if s.isOk then
      heartbeatStep7 env isLeader registry req
        { resp with signedCertDer := some cert,
                    caCertDer := resp.caCertDer ++ [env.caCertDer] }
        reportDel true
    else
      ⟨resp, .failure (s.CloneAndPrepend "invalid CSR"), registry, reportDel, true⟩
  | _, _ => heartbeatStep7 env isLeader registry req resp reportDel false

/-- Step 5 of `TSHeartbeat` (`master_service.cc:186-194`): only leaders
delegate a tablet report to the catalog manager; a processing failure is a
transport-level failure prefixed "Failed to process tablet report". -/
def heartbeatStep5 (env : HeartbeatEnv) (isLeader : Bool)
    (registry : TSManager) (desc : TSDescriptor) (req : TSHeartbeatRequestPB)
    (resp : TSHeartbeatResponsePB) : HeartbeatOutcome :=
  match req.tabletReport, isLeader with
  | some report, true =>
    let (s, rep) := env.processTabletReport desc report
    if s.isOk then
      heartbeatStep6 env isLeader registry req
        { resp with tabletReport := some rep } true
    else
      ⟨resp, .failure (s.CloneAndPrepend "Failed to process tablet report"),
        registry, true, false⟩
  | _, _ => heartbeatStep6 env isLeader registry req resp false

/-- Steps 4-7 of `TSHeartbeat` on a resolved descriptor
(`master_service.cc:182-223`): refresh the soft state unconditionally
(visible in the registry through the shared handle), then the leader-only
steps. -/
def heartbeatResolved (env : HeartbeatEnv) (isLeader : Bool)
    (registry : TSManager) (desc : TSDescriptor) (req : TSHeartbeatRequestPB)
    (resp : TSHeartbeatResponsePB) : HeartbeatOutcome :=
  let desc2 := (desc.UpdateHeartbeatTime env.now).setNumLiveReplicas req.numLiveTablets
  heartbeatStep5 env isLeader (registry.writeBack desc2) desc2 req resp

/-- `MasterServiceImpl::TSHeartbeat` (`master_service.cc:130-224`):
InitializedOnly gate, attach self-identity and the leader flag, register or
look up the tserver (NotFound on lookup asks for re-registration and a full
report only from a leader), then the resolved-descriptor steps. -/
def MasterServiceImpl.TSHeartbeat (env : HeartbeatEnv)
    (l : ScopedLeaderSharedLock) (registry : TSManager)
    (req : TSHeartbeatRequestPB) : HeartbeatOutcome :=
  match checkIsInitializedGate l with
  | some e =>
    ⟨{ TSHeartbeatResponsePB.empty with error := some e }, .success,
      registry, false, false⟩
  | none =>
    let isLeader := l.isLeader
    let resp := { TSHeartbeatResponsePB.empty with
                  masterInstance := some env.masterInstance,
                  leaderMaster := some isLeader }
    match req.registration with
    | some reg =>
      match registry.RegisterTS req.tsInstance reg with
      | .error s => ⟨resp, .failure s, registry, false, false⟩
      | .ok (registry2, desc) => heartbeatResolved env isLeader registry2 desc req resp
    | none =>
      match registry.LookupTS req.tsInstance with
      | .error s =>
        if s.IsNotFound then
          ⟨{ resp with needsReregister := true,
                       needsFullTabletReport := isLeader }, .success,
            registry, false, false⟩
        else
          ⟨resp, .failure (s.CloneAndPrepend "Unable to lookup tserver"),
            registry, false, false⟩
      | .ok desc => heartbeatResolved env isLeader registry desc req resp

/-! ## `MasterServiceImpl::ConnectToMaster` -/

/-- `RemoteUser::Method`: how the caller's identity was proven.  The
service only compares against `AUTHN_TOKEN`. -/
inductive AuthnMethod where
  | AUTHN_TOKEN
  | SASL
  | CLIENT_CERT
deriving Repr, DecidableEq

/-- The part of `rpc::RemoteUser` that `ConnectToMaster` reads. -/
structure RemoteUser where
  username : String
  authenticatedBy : AuthnMethod
deriving Repr, DecidableEq

/-- `consensus::RaftPeerPB::Role` as reported by `CatalogManager::Role()`. -/
inductive RaftRole where
  | LEADER
  | FOLLOWER
  | UNKNOWN_ROLE
deriving Repr, DecidableEq

/-- `ConnectToMasterResponsePB`, with the fields the handler writes.
Host-ports, certificates and the signed token are kept abstract as
strings. -/
structure ConnectToMasterResponsePB where
  error : Option MasterErrorPB
  role : Option RaftRole
  masterAddrs : List String
  caCertDer : List String
  authnToken : Option String
deriving Repr, DecidableEq

/-- The all-unset `ConnectToMasterResponsePB`. -/
def ConnectToMasterResponsePB.empty : ConnectToMasterResponsePB :=
  ⟨none, none, [], [], none⟩

/-- `MasterServiceImpl::ConnectToMaster` (`master_service.cc:413-462`):
InitializedOnly gate; attach the role and every master host-port; if this
process is leader, attach the CA certificate and, unless the caller already
authenticated via an authn token, generate and attach a fresh authn token —
a generation failure is logged and swallowed, the call still succeeding
without a token.  `generateAuthnToken` models
`TokenSigner::GenerateAuthnToken` for the caller's username. -/
def MasterServiceImpl.ConnectToMaster (l : ScopedLeaderSharedLock)
    (role : RaftRole) (hostports : List String) (caCert : String)
    (generateAuthnToken : String → Status × String) (user : RemoteUser) :
    ConnectToMasterResponsePB × RpcResult :=
  match checkIsInitializedGate l with
  | some e =>
    ({ ConnectToMasterResponsePB.empty with error := some e }, .success)
  | none =>
    let resp := { ConnectToMasterResponsePB.empty with
                  role := some role, masterAddrs := hostports }
    if l.leaderStatus.isOk then
      let resp := { resp with caCertDer := resp.caCertDer ++ [caCert] }
      if user.authenticatedBy != .AUTHN_TOKEN then
        let (s, token) := generateAuthnToken user.username
        if s.isOk then
          ({ resp with authnToken := some token }, .success)
        else
          (resp, .success)
      else
        (resp, .success)
    else
      (resp, .success)

/-! ## Lemmas about the uniform metadata forwarder -/

/-- With the catalog initialized but this process not leader, the shared
forwarder writes the not-leader structured error and never reaches the
delegate. -/
lemma forwardCatalogCall_notLeader {σ α : Type} (l : ScopedLeaderSharedLock)
    (st : σ) (delegate : CatalogDelegate σ α) (resp0 : MasterResponse α)
    (hInit : l.catalogInitialized = true)
    (hNotLeader : l.leaderStatus.isOk = false) :
    forwardCatalogCall l st delegate resp0 =
      ⟨{ resp0 with error := some ⟨.NOT_THE_LEADER, l.leaderStatus⟩ },
        .success, st, false⟩ := by
  simp [forwardCatalogCall, checkIsInitializedAndIsLeaderGate,
        checkIsInitializedGate, ScopedLeaderSharedLock.isLeader, hInit,
        hNotLeader]

/-- With the catalog initialized and this process leader, the shared
forwarder delegates, normalizes the delegate's status into the response,
and responds success. -/
lemma forwardCatalogCall_leader {σ α : Type} (l : ScopedLeaderSharedLock)
    (st : σ) (delegate : CatalogDelegate σ α) (resp0 : MasterResponse α)
    (hInit : l.catalogInitialized = true)
    (hLeader : l.leaderStatus.isOk = true) :
    forwardCatalogCall l st delegate resp0 =
      ⟨CheckRespErrorOrSetUnknown (delegate st resp0).1 (delegate st resp0).2.2,
        .success, (delegate st resp0).2.1, true⟩ := by
  rcases hd : delegate st resp0 with ⟨s, st2, r⟩
  simp [forwardCatalogCall, checkIsInitializedAndIsLeaderGate,
        checkIsInitializedGate, ScopedLeaderSharedLock.isLeader, hInit,
        hLeader, hd]

/-- Claim C2: every call gated InitializedAndLeader (the eight uniform
forwarders and `GetTabletLocations`), made while the catalog is initialized
but this process is not leader, carries the not-leader structured error in
its response, performs no delegation to the catalog manager, and leaves the
catalog state unmodified. -/
theorem gatedCalls_notLeader_error_and_no_delegation {σ α L : Type}
    (l : ScopedLeaderSharedLock) (st : σ) (delegate : CatalogDelegate σ α)
    (resp0 : MasterResponse α) (lookup : String → Status × L)
    (ids : List String)
    (hInit : l.catalogInitialized = true)
    (hNotLeader : l.leaderStatus.isOk = false) :
    (MasterServiceImpl.CreateTable l st delegate resp0 =
      ⟨{ resp0 with error := some ⟨.NOT_THE_LEADER, l.leaderStatus⟩ },
        .success, st, false⟩) ∧
    (MasterServiceImpl.IsCreateTableDone l st delegate resp0 =
      ⟨{ resp0 with error := some ⟨.NOT_THE_LEADER, l.leaderStatus⟩ },
        .success, st, false⟩) ∧
    (MasterServiceImpl.DeleteTable l st delegate resp0 =
      ⟨{ resp0 with error := some ⟨.NOT_THE_LEADER, l.leaderStatus⟩ },
        .success, st, false⟩) ∧
    (MasterServiceImpl.AlterTable l st delegate resp0 =
      ⟨{ resp0 with error := some ⟨.NOT_THE_LEADER, l.leaderStatus⟩ },
        .success, st, false⟩) ∧
    (MasterServiceImpl.IsAlterTableDone l st delegate resp0 =
      ⟨{ resp0 with error := some ⟨.NOT_THE_LEADER, l.leaderStatus⟩ },
        .success, st, false⟩) ∧
    (MasterServiceImpl.ListTables l st delegate resp0 =
      ⟨{ resp0 with error := some ⟨.NOT_THE_LEADER, l.leaderStatus⟩ },
        .success, st, false⟩) ∧
    (MasterServiceImpl.GetTableLocations l st delegate resp0 =
      ⟨{ resp0 with error := some ⟨.NOT_THE_LEADER, l.leaderStatus⟩ },
        .success, st, false⟩) ∧
    (MasterServiceImpl.GetTableSchema l st delegate resp0 =
      ⟨{ resp0 with error := some ⟨.NOT_THE_LEADER, l.leaderStatus⟩ },
        .success, st, false⟩) ∧
    (MasterServiceImpl.GetTabletLocations l lookup ids =
      ⟨⟨some ⟨.NOT_THE_LEADER, l.leaderStatus⟩, ⟨[], []⟩⟩, .success, []⟩) := by
  refine ⟨?_, ?_, ?_, ?_, ?_, ?_, ?_, ?_, ?_⟩
  case _ => exact forwardCatalogCall_notLeader l st delegate resp0 hInit hNotLeader
  case _ => exact forwardCatalogCall_notLeader l st delegate resp0 hInit hNotLeader
  case _ => exact forwardCatalogCall_notLeader l st delegate resp0 hInit hNotLeader
  case _ => exact forwardCatalogCall_notLeader l st delegate resp0 hInit hNotLeader
  case _ => exact forwardCatalogCall_notLeader l st delegate resp0 hInit hNotLeader
  case _ => exact forwardCatalogCall_notLeader l st delegate resp0 hInit hNotLeader
  case _ => exact forwardCatalogCall_notLeader l st delegate resp0 hInit hNotLeader
  case _ => exact forwardCatalogCall_notLeader l st delegate resp0 hInit hNotLeader
  case _ =>
    simp [MasterServiceImpl.GetTabletLocations,
          checkIsInitializedAndIsLeaderGate, checkIsInitializedGate,
          ScopedLeaderSharedLock.isLeader, hInit, hNotLeader]

/-- Witness for claim C2 at a concrete follower lock: `CreateTable` is
blocked with the not-leader error, and `GetTabletLocations` performs no
lookups. -/
theorem gatedCalls_notLeader_witness :
    (MasterServiceImpl.CreateTable (⟨true, .err "not the leader"⟩ : ScopedLeaderSharedLock)
        (0 : Nat) (fun st r => (Status.ok, st + 1, r)) (⟨none, (0 : Nat)⟩ : MasterResponse Nat) =
      ⟨⟨some ⟨.NOT_THE_LEADER, .err "not the leader"⟩, 0⟩, .success, 0, false⟩) ∧
    (MasterServiceImpl.GetTabletLocations (⟨true, .err "not the leader"⟩ : ScopedLeaderSharedLock)
        (fun _ => (Status.ok, (0 : Nat))) ["tablet-1"] =
      ⟨⟨some ⟨.NOT_THE_LEADER, .err "not the leader"⟩, ⟨[], []⟩⟩, .success, []⟩) := by
  have h := gatedCalls_notLeader_error_and_no_delegation
    (⟨true, .err "not the leader"⟩ : ScopedLeaderSharedLock) (0 : Nat)
    (fun st r => (Status.ok, st + 1, r)) (⟨none, (0 : Nat)⟩ : MasterResponse Nat)
    (fun _ => (Status.ok, (0 : Nat))) ["tablet-1"] rfl rfl
  exact ⟨h.1, h.2.2.2.2.2.2.2.2⟩

/-- The normalizer sets the UNKNOWN_ERROR code exactly when the status is
not OK and no application-specific error was already present. -/
lemma CheckRespErrorOrSetUnknown_sets_unknown {α : Type} (s : Status)
    (r : MasterResponse α) (hs : s.isOk = false) (hr : r.error = none) :
    CheckRespErrorOrSetUnknown s r = { r with error := some ⟨.UNKNOWN_ERROR, s⟩ } := by
  simp [CheckRespErrorOrSetUnknown, hs, hr]

/-- The normalizer leaves the response untouched when the status is OK or
an application-specific error is already set. -/
lemma CheckRespErrorOrSetUnknown_noop {α : Type} (s : Status)
    (r : MasterResponse α) (h : s.isOk = true ∨ r.error.isSome = true) :
    CheckRespErrorOrSetUnknown s r = r := by
  rcases h with h | h
  · simp [CheckRespErrorOrSetUnknown, h]
  · cases he : r.error with
    | none => rw [he] at h; simp at h
    | some e => simp [CheckRespErrorOrSetUnknown, he]

/-- Claim C3: every uniform metadata forwarder call, after delegating to
the catalog manager, normalizes the delegate's status — a non-OK status
with no application-specific error already set becomes a structured error
with code UNKNOWN_ERROR carrying that status, and an already-set error (or
an OK status) leaves the response untouched — and the call replies success
at the transport level regardless of whether a structured error was set. -/
theorem forwarders_normalize_error_and_respond_success {σ α : Type}
    (l : ScopedLeaderSharedLock) (st : σ) (delegate : CatalogDelegate σ α)
    (resp0 : MasterResponse α)
    (hInit : l.catalogInitialized = true)
    (hLeader : l.leaderStatus.isOk = true) :
    ((MasterServiceImpl.CreateTable l st delegate resp0).rpc = .success ∧
      (MasterServiceImpl.CreateTable l st delegate resp0).resp =
        CheckRespErrorOrSetUnknown (delegate st resp0).1 (delegate st resp0).2.2) ∧
    ((MasterServiceImpl.IsCreateTableDone l st delegate resp0).rpc = .success ∧
      (MasterServiceImpl.IsCreateTableDone l st delegate resp0).resp =
        CheckRespErrorOrSetUnknown (delegate st resp0).1 (delegate st resp0).2.2) ∧
    ((MasterServiceImpl.DeleteTable l st delegate resp0).rpc = .success ∧
      (MasterServiceImpl.DeleteTable l st delegate resp0).resp =
        CheckRespErrorOrSetUnknown (delegate st resp0).1 (delegate st resp0).2.2) ∧
    ((MasterServiceImpl.AlterTable l st delegate resp0).rpc = .success ∧
      (MasterServiceImpl.AlterTable l st delegate resp0).resp =
        CheckRespErrorOrSetUnknown (delegate st resp0).1 (delegate st resp0).2.2) ∧
    ((MasterServiceImpl.IsAlterTableDone l st delegate resp0).rpc = .success ∧
      (MasterServiceImpl.IsAlterTableDone l st delegate resp0).resp =
        CheckRespErrorOrSetUnknown (delegate st resp0).1 (delegate st resp0).2.2) ∧
    ((MasterServiceImpl.ListTables l st delegate resp0).rpc = .success ∧
      (MasterServiceImpl.ListTables l st delegate resp0).resp =
        CheckRespErrorOrSetUnknown (delegate st resp0).1 (delegate st resp0).2.2) ∧
    ((MasterServiceImpl.GetTableLocations l st delegate resp0).rpc = .success ∧
      (MasterServiceImpl.GetTableLocations l st delegate resp0).resp =
        CheckRespErrorOrSetUnknown (delegate st resp0).1 (delegate st resp0).2.2) ∧
    ((MasterServiceImpl.GetTableSchema l st delegate resp0).rpc = .success ∧
      (MasterServiceImpl.GetTableSchema l st delegate resp0).resp =
        CheckRespErrorOrSetUnknown (delegate st resp0).1 (delegate st resp0).2.2) ∧
    (∀ (s : Status) (r : MasterResponse α), s.isOk = false → r.error = none →
      CheckRespErrorOrSetUnknown s r = { r with error := some ⟨.UNKNOWN_ERROR, s⟩ }) ∧
    (∀ (s : Status) (r : MasterResponse α), s.isOk = true ∨ r.error.isSome = true →
      CheckRespErrorOrSetUnknown s r = r) := by
  have hf := forwardCatalogCall_leader l st delegate resp0 hInit hLeader
  refine ⟨?_, ?_, ?_, ?_, ?_, ?_, ?_, ?_,
    fun s r hs hr => CheckRespErrorOrSetUnknown_sets_unknown s r hs hr,
    fun s r h => CheckRespErrorOrSetUnknown_noop s r h⟩ <;>
  · constructor
    · show (forwardCatalogCall l st delegate resp0).rpc = .success
      rw [hf]
    · show (forwardCatalogCall l st delegate resp0).resp = _
      rw [hf]

/-- Witness for claim C3: a delegate failing with no pre-set error yields
the UNKNOWN_ERROR structured error and a transport-level success. -/
theorem forwarders_normalize_error_witness :
    (MasterServiceImpl.CreateTable (⟨true, .ok⟩ : ScopedLeaderSharedLock)
        (0 : Nat) (fun st r => (Status.err "boom", st, r))
        (⟨none, (7 : Nat)⟩ : MasterResponse Nat)).rpc = .success ∧
    (MasterServiceImpl.CreateTable (⟨true, .ok⟩ : ScopedLeaderSharedLock)
        (0 : Nat) (fun st r => (Status.err "boom", st, r))
        (⟨none, (7 : Nat)⟩ : MasterResponse Nat)).resp =
      ⟨some ⟨.UNKNOWN_ERROR, .err "boom"⟩, 7⟩ := by
  have h := forwarders_normalize_error_and_respond_success
    (⟨true, .ok⟩ : ScopedLeaderSharedLock) (0 : Nat)
    (fun st r => (Status.err "boom", st, r))
    (⟨none, (7 : Nat)⟩ : MasterResponse Nat) rfl rfl
  refine ⟨h.1.1, ?_⟩
  rw [h.1.2]
  rfl

/-! ## The per-id resolution loop of `GetTabletLocations` -/

/-- Characterization of the lookup loop: starting from an accumulator, it
appends the locations of the resolvable ids (in request order), the per-id
errors of the unresolvable ids (in request order), and records every id as
looked up. -/
lemma getTabletLocations_foldl {L : Type} (lookup : String → Status × L)
    (ids : List String) (acc : TabletLocationsPayload L × List String) :
    ids.foldl (getTabletLocationsStep lookup) acc =
      (⟨acc.1.tabletLocations ++
          (ids.filter (fun t => ((lookup t).1).isOk)).map (fun t => (lookup t).2),
        acc.1.errors ++
          (ids.filter (fun t => !((lookup t).1).isOk)).map
            (fun t => ⟨t, (lookup t).1⟩)⟩,
       acc.2 ++ ids) := by
  induction ids generalizing acc with
  | nil => simp
  | cons t ts ih =>
    rw [List.foldl_cons, ih]
    rcases hl : lookup t with ⟨s, loc⟩
    by_cases hs : s.isOk
    · simp [getTabletLocationsStep, hl, hs, List.filter_cons]
    · simp only [getTabletLocationsStep, hl]
      simp [hs, List.filter_cons, List.dropLast_concat, hl]

/-- Claim C5: with the gate passed, `GetTabletLocations` resolves each
requested tablet id independently — every unresolvable id yields exactly
one per-id error entry carrying that id and its failure status, every
resolvable id yields a location entry, no failure aborts the remaining
lookups (every requested id is handed to the catalog manager), and the
call replies transport-level success. -/
theorem getTabletLocations_partial_resolution {L : Type}
    (l : ScopedLeaderSharedLock) (lookup : String → Status × L)
    (ids : List String)
    (hInit : l.catalogInitialized = true)
    (hLeader : l.leaderStatus.isOk = true) :
    (MasterServiceImpl.GetTabletLocations l lookup ids).rpc = .success ∧
    (MasterServiceImpl.GetTabletLocations l lookup ids).resp.error = none ∧
    (MasterServiceImpl.GetTabletLocations l lookup ids).lookedUp = ids ∧
    (MasterServiceImpl.GetTabletLocations l lookup ids).resp.payload.tabletLocations =
      (ids.filter (fun t => ((lookup t).1).isOk)).map (fun t => (lookup t).2) ∧
    (MasterServiceImpl.GetTabletLocations l lookup ids).resp.payload.errors =
      (ids.filter (fun t => !((lookup t).1).isOk)).map (fun t => ⟨t, (lookup t).1⟩) := by
  have hg : checkIsInitializedAndIsLeaderGate l = none := by
    simp [checkIsInitializedAndIsLeaderGate, checkIsInitializedGate,
          ScopedLeaderSharedLock.isLeader, hInit, hLeader]
  have hf := getTabletLocations_foldl lookup ids ⟨⟨[], []⟩, []⟩
  simp [MasterServiceImpl.GetTabletLocations, hg, hf]

/-- Witness for claim C5: one unresolvable id among two resolvable ones
yields exactly one error entry between the two location entries' ids. -/
theorem getTabletLocations_partial_resolution_witness :
    (MasterServiceImpl.GetTabletLocations (⟨true, .ok⟩ : ScopedLeaderSharedLock)
      (fun t => if t == "t-bad" then (Status.notFound "missing", (0 : Nat))
                else (Status.ok, 42))
      ["t-a", "t-bad", "t-b"]).resp.payload.errors =
        [⟨"t-bad", Status.notFound "missing"⟩] ∧
    (MasterServiceImpl.GetTabletLocations (⟨true, .ok⟩ : ScopedLeaderSharedLock)
      (fun t => if t == "t-bad" then (Status.notFound "missing", (0 : Nat))
                else (Status.ok, 42))
      ["t-a", "t-bad", "t-b"]).resp.payload.tabletLocations = [42, 42] ∧
    (MasterServiceImpl.GetTabletLocations (⟨true, .ok⟩ : ScopedLeaderSharedLock)
      (fun t => if t == "t-bad" then (Status.notFound "missing", (0 : Nat))
                else (Status.ok, 42))
      ["t-a", "t-bad", "t-b"]).rpc = .success := by
  have h := getTabletLocations_partial_resolution
    (⟨true, .ok⟩ : ScopedLeaderSharedLock)
    (fun t => if t == "t-bad" then (Status.notFound "missing", (0 : Nat))
              else (Status.ok, 42))
    ["t-a", "t-bad", "t-b"] rfl rfl
  refine ⟨?_, ?_, h.1⟩
  · rw [h.2.2.2.2]; rfl
  · rw [h.2.2.2.1]; rfl

/-- Claim C10: in a `GetTabletLocations` response the location entries
appear in the same relative order as their ids in the request, the per-id
error entries likewise appear in request order, and each requested id
contributes to exactly one of the two lists (the lengths add up to the
request length). -/
theorem getTabletLocations_order_and_partition {L : Type}
    (l : ScopedLeaderSharedLock) (lookup : String → Status × L)
    (ids : List String)
    (hInit : l.catalogInitialized = true)
    (hLeader : l.leaderStatus.isOk = true) :
    (MasterServiceImpl.GetTabletLocations l lookup ids).resp.payload.tabletLocations =
      (ids.filter (fun t => ((lookup t).1).isOk)).map (fun t => (lookup t).2) ∧
    ((MasterServiceImpl.GetTabletLocations l lookup ids).resp.payload.errors).map
        (fun e => e.tabletId) =
      ids.filter (fun t => !((lookup t).1).isOk) ∧
    (MasterServiceImpl.GetTabletLocations l lookup ids).resp.payload.tabletLocations.length +
      (MasterServiceImpl.GetTabletLocations l lookup ids).resp.payload.errors.length =
      ids.length := by
  obtain ⟨-, -, -, hlocs, herrs⟩ :=
    getTabletLocations_partial_resolution l lookup ids hInit hLeader
  refine ⟨hlocs, ?_, ?_⟩
  · rw [herrs, List.map_map]
    have hc : ((fun (e : TabletLocationsError) => e.tabletId) ∘
        fun t => ({ tabletId := t, status := (lookup t).1 } : TabletLocationsError)) =
        fun t => t := by
      funext t
      rfl
    rw [hc]
    simp
  · rw [hlocs, herrs]
    simp only [List.length_map]
    exact (List.length_eq_length_filter_add (fun t => ((lookup t).1).isOk)).symm

/-- Witness for claim C10 at the same mixed request: ids partition into
the two lists in request order. -/
theorem getTabletLocations_order_witness :
    ((MasterServiceImpl.GetTabletLocations (⟨true, .ok⟩ : ScopedLeaderSharedLock)
      (fun t => if t == "t-bad" then (Status.notFound "missing", (0 : Nat))
                else (Status.ok, 42))
      ["t-a", "t-bad", "t-b"]).resp.payload.errors).map (fun e => e.tabletId) =
        ["t-bad"] ∧
    (MasterServiceImpl.GetTabletLocations (⟨true, .ok⟩ : ScopedLeaderSharedLock)
      (fun t => if t == "t-bad" then (Status.notFound "missing", (0 : Nat))
                else (Status.ok, 42))
      ["t-a", "t-bad", "t-b"]).resp.payload.tabletLocations.length +
      (MasterServiceImpl.GetTabletLocations (⟨true, .ok⟩ : ScopedLeaderSharedLock)
        (fun t => if t == "t-bad" then (Status.notFound "missing", (0 : Nat))
                  else (Status.ok, 42))
        ["t-a", "t-bad", "t-b"]).resp.payload.errors.length = 3 := by
  have h := getTabletLocations_order_and_partition
    (⟨true, .ok⟩ : ScopedLeaderSharedLock)
    (fun t => if t == "t-bad" then (Status.notFound "missing", (0 : Nat))
              else (Status.ok, 42))
    ["t-a", "t-bad", "t-b"] rfl rfl
  refine ⟨?_, h.2.2⟩
  rw [h.2.1]
  rfl

/-! ## Frame lemmas for the heartbeat's leader-only steps -/

/-- Step 7 responds success, passes the registry and delegation flags
through, and touches no response field other than `tsks`. -/
lemma heartbeatStep7_frame (env : HeartbeatEnv) (iL : Bool) (reg : TSManager)
    (req : TSHeartbeatRequestPB) (resp : TSHeartbeatResponsePB)
    (a b : Bool) :
    (heartbeatStep7 env iL reg req resp a b).rpc = .success ∧
    (heartbeatStep7 env iL reg req resp a b).registry = reg ∧
    (heartbeatStep7 env iL reg req resp a b).reportDelegated = a ∧
    (heartbeatStep7 env iL reg req resp a b).csrDelegated = b ∧
    (heartbeatStep7 env iL reg req resp a b).resp.error = resp.error ∧
    (heartbeatStep7 env iL reg req resp a b).resp.masterInstance = resp.masterInstance ∧
    (heartbeatStep7 env iL reg req resp a b).resp.leaderMaster = resp.leaderMaster ∧
    (heartbeatStep7 env iL reg req resp a b).resp.needsReregister = resp.needsReregister ∧
    (heartbeatStep7 env iL reg req resp a b).resp.needsFullTabletReport = resp.needsFullTabletReport ∧
    (heartbeatStep7 env iL reg req resp a b).resp.tabletReport = resp.tabletReport ∧
    (heartbeatStep7 env iL reg req resp a b).resp.signedCertDer = resp.signedCertDer ∧
    (heartbeatStep7 env iL reg req resp a b).resp.caCertDer = resp.caCertDer := by
  unfold heartbeatStep7
  cases hseq : req.latestTskSeqNum with
  | none => simp
  | some seq =>
    by_cases hf : (iL || env.flagNonLeaderPropagateTsk) = true <;> simp [hf]

/-- Step 6 passes the registry and the report-delegation flag through and
touches no response field other than the certificate fields; its only
transport failure carries the CSR-delegation flag. -/
lemma heartbeatStep6_frame (env : HeartbeatEnv) (iL : Bool) (reg : TSManager)
    (req : TSHeartbeatRequestPB) (resp : TSHeartbeatResponsePB) (a : Bool) :
    (heartbeatStep6 env iL reg req resp a).registry = reg ∧
    (heartbeatStep6 env iL reg req resp a).reportDelegated = a ∧
    (heartbeatStep6 env iL reg req resp a).resp.error = resp.error ∧
    (heartbeatStep6 env iL reg req resp a).resp.masterInstance = resp.masterInstance ∧
    (heartbeatStep6 env iL reg req resp a).resp.leaderMaster = resp.leaderMaster ∧
    (heartbeatStep6 env iL reg req resp a).resp.needsReregister = resp.needsReregister ∧
    (heartbeatStep6 env iL reg req resp a).resp.needsFullTabletReport = resp.needsFullTabletReport ∧
    (heartbeatStep6 env iL reg req resp a).resp.tabletReport = resp.tabletReport ∧
    (∀ s, (heartbeatStep6 env iL reg req resp a).rpc = .failure s →
      (heartbeatStep6 env iL reg req resp a).csrDelegated = true) := by
  unfold heartbeatStep6
  cases hc : req.csrDer with
  | none =>
    cases iL with
    | false =>
      have h7 := heartbeatStep7_frame env false reg req resp a false
      refine ⟨h7.2.1, h7.2.2.1, h7.2.2.2.2.1, h7.2.2.2.2.2.1,
        h7.2.2.2.2.2.2.1, h7.2.2.2.2.2.2.2.1, h7.2.2.2.2.2.2.2.2.1,
        h7.2.2.2.2.2.2.2.2.2.1, ?_⟩
      intro s hf
      rw [h7.1] at hf
      cases hf
    | true =>
      have h7 := heartbeatStep7_frame env true reg req resp a false
      refine ⟨h7.2.1, h7.2.2.1, h7.2.2.2.2.1, h7.2.2.2.2.2.1,
        h7.2.2.2.2.2.2.1, h7.2.2.2.2.2.2.2.1, h7.2.2.2.2.2.2.2.2.1,
        h7.2.2.2.2.2.2.2.2.2.1, ?_⟩
      intro s hf
      rw [h7.1] at hf
      cases hf
  | some csr =>
    cases iL with
    | false =>
      have h7 := heartbeatStep7_frame env false reg req resp a false
      refine ⟨h7.2.1, h7.2.2.1, h7.2.2.2.2.1, h7.2.2.2.2.2.1,
        h7.2.2.2.2.2.2.1, h7.2.2.2.2.2.2.2.1, h7.2.2.2.2.2.2.2.2.1,
        h7.2.2.2.2.2.2.2.2.2.1, ?_⟩
      intro s hf
      rw [h7.1] at hf
      cases hf
    | true =>
      rcases hsc : env.signServerCSR csr env.remoteUser with ⟨s, cert⟩
      by_cases hok : s.isOk = true
      · have h7 := heartbeatStep7_frame env true reg req
          { resp with signedCertDer := some cert,
                      caCertDer := resp.caCertDer ++ [env.caCertDer] } a true
        simp only [hsc, hok, if_true]
        refine ⟨h7.2.1, h7.2.2.1, h7.2.2.2.2.1, h7.2.2.2.2.2.1,
          h7.2.2.2.2.2.2.1, h7.2.2.2.2.2.2.2.1, h7.2.2.2.2.2.2.2.2.1,
          h7.2.2.2.2.2.2.2.2.2.1, ?_⟩
        intro s' hf
        rw [h7.1] at hf
        cases hf
      · simp [hsc, hok]

/-- Step 5 passes the registry through and touches none of the identity,
re-registration and error fields of the response; its only transport
failures have delegated the report or the CSR. -/
lemma heartbeatStep5_frame (env : HeartbeatEnv) (iL : Bool) (reg : TSManager)
    (desc : TSDescriptor) (req : TSHeartbeatRequestPB)
    (resp : TSHeartbeatResponsePB) :
    (heartbeatStep5 env iL reg desc req resp).registry = reg ∧
    (heartbeatStep5 env iL reg desc req resp).resp.error = resp.error ∧
    (heartbeatStep5 env iL reg desc req resp).resp.masterInstance = resp.masterInstance ∧
    (heartbeatStep5 env iL reg desc req resp).resp.leaderMaster = resp.leaderMaster ∧
    (heartbeatStep5 env iL reg desc req resp).resp.needsReregister = resp.needsReregister ∧
    (heartbeatStep5 env iL reg desc req resp).resp.needsFullTabletReport = resp.needsFullTabletReport ∧
    (∀ s, (heartbeatStep5 env iL reg desc req resp).rpc = .failure s →
      (heartbeatStep5 env iL reg desc req resp).reportDelegated = true ∨
      (heartbeatStep5 env iL reg desc req resp).csrDelegated = true) := by
  unfold heartbeatStep5
  cases hr : req.tabletReport with
  | none =>
    cases iL with
    | false =>
      have h6 := heartbeatStep6_frame env false reg req resp false
      exact ⟨h6.1, h6.2.2.1, h6.2.2.2.1, h6.2.2.2.2.1, h6.2.2.2.2.2.1,
        h6.2.2.2.2.2.2.1, fun s hf => Or.inr (h6.2.2.2.2.2.2.2.2 s hf)⟩
    | true =>
      have h6 := heartbeatStep6_frame env true reg req resp false
      exact ⟨h6.1, h6.2.2.1, h6.2.2.2.1, h6.2.2.2.2.1, h6.2.2.2.2.2.1,
        h6.2.2.2.2.2.2.1, fun s hf => Or.inr (h6.2.2.2.2.2.2.2.2 s hf)⟩
  | some report =>
    cases iL with
    | false =>
      have h6 := heartbeatStep6_frame env false reg req resp false
      exact ⟨h6.1, h6.2.2.1, h6.2.2.2.1, h6.2.2.2.2.1, h6.2.2.2.2.2.1,
        h6.2.2.2.2.2.2.1, fun s hf => Or.inr (h6.2.2.2.2.2.2.2.2 s hf)⟩
    | true =>
      rcases hp : env.processTabletReport desc report with ⟨s, rep⟩
      by_cases hok : s.isOk = true
      · have h6 := heartbeatStep6_frame env true reg req
          { resp with tabletReport := some rep } true
        simp only [hp, hok, if_true]
        exact ⟨h6.1, h6.2.2.1, h6.2.2.2.1, h6.2.2.2.2.1, h6.2.2.2.2.2.1,
          h6.2.2.2.2.2.2.1, fun s' _ => Or.inl h6.2.1⟩
      · simp [hp, hok]

/-- On a follower the leader-only steps do nothing observable beyond the
TSK export: success, no delegation, and all certificate/report response
fields untouched. -/
lemma heartbeatStep5_follower (env : HeartbeatEnv) (reg : TSManager)
    (desc : TSDescriptor) (req : TSHeartbeatRequestPB)
    (resp : TSHeartbeatResponsePB) :
    (heartbeatStep5 env false reg desc req resp).rpc = .success ∧
    (heartbeatStep5 env false reg desc req resp).reportDelegated = false ∧
    (heartbeatStep5 env false reg desc req resp).csrDelegated = false ∧
    (heartbeatStep5 env false reg desc req resp).resp.tabletReport = resp.tabletReport ∧
    (heartbeatStep5 env false reg desc req resp).resp.signedCertDer = resp.signedCertDer ∧
    (heartbeatStep5 env false reg desc req resp).resp.caCertDer = resp.caCertDer ∧
    (heartbeatStep5 env false reg desc req resp).resp.error = resp.error ∧
    (heartbeatStep5 env false reg desc req resp).resp.leaderMaster = resp.leaderMaster ∧
    (heartbeatStep5 env false reg desc req resp).registry = reg := by
  have h5 : heartbeatStep5 env false reg desc req resp =
      heartbeatStep7 env false reg req resp false false := by
    unfold heartbeatStep5 heartbeatStep6
    cases req.tabletReport <;> cases req.csrDer <;> rfl
  have h7 := heartbeatStep7_frame env false reg req resp false false
  rw [h5]
  exact ⟨h7.1, h7.2.2.1, h7.2.2.2.1, h7.2.2.2.2.2.2.2.2.2.1,
    h7.2.2.2.2.2.2.2.2.2.2.1, h7.2.2.2.2.2.2.2.2.2.2.2, h7.2.2.2.2.1,
    h7.2.2.2.2.2.2.1, h7.2.1⟩

/-- Reduction of `TSHeartbeat` on the bare-heartbeat path with a
successful lookup: the handler refreshes the descriptor's soft state in
the registry and runs the leader-only steps on the response carrying the
master identity and leader flag. -/
lemma TSHeartbeat_lookup_ok (env : HeartbeatEnv) (l : ScopedLeaderSharedLock)
    (registry : TSManager) (req : TSHeartbeatRequestPB) (desc : TSDescriptor)
    (hInit : l.catalogInitialized = true)
    (hNoReg : req.registration = none)
    (hLookup : registry.LookupTS req.tsInstance = .ok desc) :
    MasterServiceImpl.TSHeartbeat env l registry req =
      heartbeatStep5 env l.isLeader
        (registry.writeBack
          ((desc.UpdateHeartbeatTime env.now).setNumLiveReplicas req.numLiveTablets))
        ((desc.UpdateHeartbeatTime env.now).setNumLiveReplicas req.numLiveTablets)
        req
        { TSHeartbeatResponsePB.empty with
          masterInstance := some env.masterInstance,
          leaderMaster := some l.isLeader } := by
  have hg : checkIsInitializedGate l = none := by
    simp [checkIsInitializedGate, hInit]
  unfold MasterServiceImpl.TSHeartbeat heartbeatResolved
  rw [hg]
  simp [hNoReg, hLookup]

/-- Reduction of `TSHeartbeat` on the registration path with a successful
(re-)registration. -/
lemma TSHeartbeat_register_ok (env : HeartbeatEnv) (l : ScopedLeaderSharedLock)
    (registry : TSManager) (req : TSHeartbeatRequestPB)
    (reg : ServerRegistrationPB) (r2 : TSManager) (desc : TSDescriptor)
    (hInit : l.catalogInitialized = true)
    (hReg : req.registration = some reg)
    (hRegTS : registry.RegisterTS req.tsInstance reg = .ok (r2, desc)) :
    MasterServiceImpl.TSHeartbeat env l registry req =
      heartbeatStep5 env l.isLeader
        (r2.writeBack
          ((desc.UpdateHeartbeatTime env.now).setNumLiveReplicas req.numLiveTablets))
        ((desc.UpdateHeartbeatTime env.now).setNumLiveReplicas req.numLiveTablets)
        req
        { TSHeartbeatResponsePB.empty with
          masterInstance := some env.masterInstance,
          leaderMaster := some l.isLeader } := by
  have hg : checkIsInitializedGate l = none := by
    simp [checkIsInitializedGate, hInit]
  unfold MasterServiceImpl.TSHeartbeat heartbeatResolved
  rw [hg]
  simp [hReg, hRegTS]

/-- Reduction of `TSHeartbeat` on the registration path when registration
fails: transport-level failure. -/
lemma TSHeartbeat_register_error (env : HeartbeatEnv)
    (l : ScopedLeaderSharedLock) (registry : TSManager)
    (req : TSHeartbeatRequestPB) (reg : ServerRegistrationPB) (s : Status)
    (hInit : l.catalogInitialized = true)
    (hReg : req.registration = some reg)
    (hRegTS : registry.RegisterTS req.tsInstance reg = .error s) :
    MasterServiceImpl.TSHeartbeat env l registry req =
      ⟨{ TSHeartbeatResponsePB.empty with
          masterInstance := some env.masterInstance,
          leaderMaster := some l.isLeader },
        .failure s, registry, false, false⟩ := by
  have hg : checkIsInitializedGate l = none := by
    simp [checkIsInitializedGate, hInit]
  unfold MasterServiceImpl.TSHeartbeat
  rw [hg]
  simp [hReg, hRegTS]

/-- Reduction of `TSHeartbeat` on the bare-heartbeat path with a NotFound
lookup: success with the re-registration flags. -/
lemma TSHeartbeat_lookup_notFound (env : HeartbeatEnv)
    (l : ScopedLeaderSharedLock) (registry : TSManager)
    (req : TSHeartbeatRequestPB) (s : Status)
    (hInit : l.catalogInitialized = true)
    (hNoReg : req.registration = none)
    (hLookup : registry.LookupTS req.tsInstance = .error s)
    (hnf : s.IsNotFound = true) :
    MasterServiceImpl.TSHeartbeat env l registry req =
      ⟨{ TSHeartbeatResponsePB.empty with
          masterInstance := some env.masterInstance,
          leaderMaster := some l.isLeader,
          needsReregister := true,
          needsFullTabletReport := l.isLeader },
        .success, registry, false, false⟩ := by
  have hg : checkIsInitializedGate l = none := by
    simp [checkIsInitializedGate, hInit]
  unfold MasterServiceImpl.TSHeartbeat
  rw [hg]
  simp [hNoReg, hLookup, hnf]

/-- Reduction of `TSHeartbeat` on the bare-heartbeat path with a
non-NotFound lookup failure: transport-level failure with context. -/
lemma TSHeartbeat_lookup_error (env : HeartbeatEnv)
    (l : ScopedLeaderSharedLock) (registry : TSManager)
    (req : TSHeartbeatRequestPB) (s : Status)
    (hInit : l.catalogInitialized = true)
    (hNoReg : req.registration = none)
    (hLookup : registry.LookupTS req.tsInstance = .error s)
    (hnf : s.IsNotFound = false) :
    MasterServiceImpl.TSHeartbeat env l registry req =
      ⟨{ TSHeartbeatResponsePB.empty with
          masterInstance := some env.masterInstance,
          leaderMaster := some l.isLeader },
        .failure (s.CloneAndPrepend "Unable to lookup tserver"),
        registry, false, false⟩ := by
  have hg : checkIsInitializedGate l = none := by
    simp [checkIsInitializedGate, hInit]
  unfold MasterServiceImpl.TSHeartbeat
  rw [hg]
  simp [hNoReg, hLookup, hnf]

/-- Claim C1: a heartbeat without a registration payload from a worker
never previously seen replies success (not failure) with
needs-reregister set, and needs-full-report set exactly when this process
is leader at call time. -/
theorem heartbeat_unknown_worker_asks_reregister (env : HeartbeatEnv)
    (l : ScopedLeaderSharedLock) (registry : TSManager)
    (req : TSHeartbeatRequestPB)
    (hInit : l.catalogInitialized = true)
    (hNoReg : req.registration = none)
    (hUnseen : ∀ d ∈ registry, d.permanentUuid ≠ req.tsInstance.permanentUuid) :
    (MasterServiceImpl.TSHeartbeat env l registry req).rpc = .success ∧
    (MasterServiceImpl.TSHeartbeat env l registry req).resp.needsReregister = true ∧
    (MasterServiceImpl.TSHeartbeat env l registry req).resp.needsFullTabletReport =
      l.isLeader := by
  have hfind : registry.find?
      (fun d => d.permanentUuid == req.tsInstance.permanentUuid) = none := by
    apply List.find?_eq_none.mpr
    intro d hd
    simpa using hUnseen d hd
  have hlookup : registry.LookupTS req.tsInstance =
      .error (.notFound "unknown tserver instance") := by
    simp [TSManager.LookupTS, hfind]
  have hg : checkIsInitializedGate l = none := by
    simp [checkIsInitializedGate, hInit]
  unfold MasterServiceImpl.TSHeartbeat
  rw [hg]
  simp [hNoReg, hlookup, Status.IsNotFound]

/-- Witness for claim C1: a bare heartbeat to a leader with an empty
registry replies success with needs-reregister and needs-full-report both
set. -/
theorem heartbeat_unknown_worker_witness :
    (MasterServiceImpl.TSHeartbeat
      ⟨⟨"master-0", 1⟩, 100, "krb-user", fun _ _ => (.ok, "rep"),
        fun _ _ => (.ok, "cert"), "ca-cert", fun _ => [], false⟩
      (⟨true, .ok⟩ : ScopedLeaderSharedLock) []
      ⟨⟨"ts-1", 1⟩, none, 3, none, none, none⟩).rpc = .success ∧
    (MasterServiceImpl.TSHeartbeat
      ⟨⟨"master-0", 1⟩, 100, "krb-user", fun _ _ => (.ok, "rep"),
        fun _ _ => (.ok, "cert"), "ca-cert", fun _ => [], false⟩
      (⟨true, .ok⟩ : ScopedLeaderSharedLock) []
      ⟨⟨"ts-1", 1⟩, none, 3, none, none, none⟩).resp.needsReregister = true ∧
    (MasterServiceImpl.TSHeartbeat
      ⟨⟨"master-0", 1⟩, 100, "krb-user", fun _ _ => (.ok, "rep"),
        fun _ _ => (.ok, "cert"), "ca-cert", fun _ => [], false⟩
      (⟨true, .ok⟩ : ScopedLeaderSharedLock) []
      ⟨⟨"ts-1", 1⟩, none, 3, none, none, none⟩).resp.needsFullTabletReport = true := by
  have h := heartbeat_unknown_worker_asks_reregister
    ⟨⟨"master-0", 1⟩, 100, "krb-user", fun _ _ => (.ok, "rep"),
      fun _ _ => (.ok, "cert"), "ca-cert", fun _ => [], false⟩
    (⟨true, .ok⟩ : ScopedLeaderSharedLock) []
    ⟨⟨"ts-1", 1⟩, none, 3, none, none, none⟩
    rfl rfl (by intro d hd; cases hd)
  exact ⟨h.1, h.2.1, h.2.2⟩

/-- Claim C7: once the InitializedOnly gate is passed, every heartbeat
response — on every path, including the needs-reregister early return and
the transport-failure paths — carries the master's self-identity and the
leader/follower flag. -/
theorem heartbeat_carries_identity_and_role (env : HeartbeatEnv)
    (l : ScopedLeaderSharedLock) (registry : TSManager)
    (req : TSHeartbeatRequestPB)
    (hInit : l.catalogInitialized = true) :
    (MasterServiceImpl.TSHeartbeat env l registry req).resp.masterInstance =
      some env.masterInstance ∧
    (MasterServiceImpl.TSHeartbeat env l registry req).resp.leaderMaster =
      some l.isLeader := by
  cases hr : req.registration with
  | some reg =>
    cases hreg : registry.RegisterTS req.tsInstance reg with
    | error s =>
      rw [TSHeartbeat_register_error env l registry req reg s hInit hr hreg]
      exact ⟨rfl, rfl⟩
    | ok p =>
      obtain ⟨r2, desc⟩ := p
      rw [TSHeartbeat_register_ok env l registry req reg r2 desc hInit hr hreg]
      exact ⟨(heartbeatStep5_frame env l.isLeader _ _ req _).2.2.1,
        (heartbeatStep5_frame env l.isLeader _ _ req _).2.2.2.1⟩
  | none =>
    cases hl : registry.LookupTS req.tsInstance with
    | error s =>
      by_cases hnf : s.IsNotFound = true
      · rw [TSHeartbeat_lookup_notFound env l registry req s hInit hr hl hnf]
        exact ⟨rfl, rfl⟩
      · rw [TSHeartbeat_lookup_error env l registry req s hInit hr hl
          (by simpa using hnf)]
        exact ⟨rfl, rfl⟩
    | ok desc =>
      rw [TSHeartbeat_lookup_ok env l registry req desc hInit hr hl]
      exact ⟨(heartbeatStep5_frame env l.isLeader _ _ req _).2.2.1,
        (heartbeatStep5_frame env l.isLeader _ _ req _).2.2.2.1⟩

/-- Witness for claim C7 on the needs-reregister early-return path: the
response still carries the master identity and the (follower) flag. -/
theorem heartbeat_identity_witness :
    (MasterServiceImpl.TSHeartbeat
      ⟨⟨"master-0", 7⟩, 100, "krb-user", fun _ _ => (.ok, "rep"),
        fun _ _ => (.ok, "cert"), "ca-cert", fun _ => [], false⟩
      (⟨true, .err "follower"⟩ : ScopedLeaderSharedLock) []
      ⟨⟨"ts-1", 1⟩, none, 3, none, none, none⟩).resp.masterInstance =
        some ⟨"master-0", 7⟩ ∧
    (MasterServiceImpl.TSHeartbeat
      ⟨⟨"master-0", 7⟩, 100, "krb-user", fun _ _ => (.ok, "rep"),
        fun _ _ => (.ok, "cert"), "ca-cert", fun _ => [], false⟩
      (⟨true, .err "follower"⟩ : ScopedLeaderSharedLock) []
      ⟨⟨"ts-1", 1⟩, none, 3, none, none, none⟩).resp.leaderMaster = some false := by
  have h := heartbeat_carries_identity_and_role
    ⟨⟨"master-0", 7⟩, 100, "krb-user", fun _ _ => (.ok, "rep"),
      fun _ _ => (.ok, "cert"), "ca-cert", fun _ => [], false⟩
    (⟨true, .err "follower"⟩ : ScopedLeaderSharedLock) []
    ⟨⟨"ts-1", 1⟩, none, 3, none, none, none⟩ rfl
  exact ⟨h.1, h.2⟩

/-- Claim C4: a bare heartbeat from a previously registered worker updates
that worker's heartbeat timestamp and live-replica count in the registry
(unconditionally once the descriptor is resolved) and leaves its
registration info, identity and sequence number unchanged. -/
theorem heartbeat_bare_refreshes_soft_state (env : HeartbeatEnv)
    (l : ScopedLeaderSharedLock) (registry : TSManager)
    (req : TSHeartbeatRequestPB) (desc : TSDescriptor)
    (hInit : l.catalogInitialized = true)
    (hNoReg : req.registration = none)
    (hLookup : registry.LookupTS req.tsInstance = .ok desc) :
    (MasterServiceImpl.TSHeartbeat env l registry req).registry =
      registry.writeBack
        ((desc.UpdateHeartbeatTime env.now).setNumLiveReplicas req.numLiveTablets) ∧
    ((desc.UpdateHeartbeatTime env.now).setNumLiveReplicas
      req.numLiveTablets).lastHeartbeat = env.now ∧
    ((desc.UpdateHeartbeatTime env.now).setNumLiveReplicas
      req.numLiveTablets).numLiveReplicas = req.numLiveTablets ∧
    ((desc.UpdateHeartbeatTime env.now).setNumLiveReplicas
      req.numLiveTablets).registration = desc.registration ∧
    ((desc.UpdateHeartbeatTime env.now).setNumLiveReplicas
      req.numLiveTablets).permanentUuid = desc.permanentUuid ∧
    ((desc.UpdateHeartbeatTime env.now).setNumLiveReplicas
      req.numLiveTablets).latestSeqno = desc.latestSeqno := by
  refine ⟨?_, rfl, rfl, rfl, rfl, rfl⟩
  rw [TSHeartbeat_lookup_ok env l registry req desc hInit hNoReg hLookup]
  exact (heartbeatStep5_frame env l.isLeader _ _ req _).1

/-- Witness for claim C4: a concrete bare heartbeat advances the stored
timestamp to 100 and the live-replica count to 5 while keeping the
registration info. -/
theorem heartbeat_bare_refreshes_witness :
    (MasterServiceImpl.TSHeartbeat
      ⟨⟨"master-0", 1⟩, 100, "krb-user", fun _ _ => (.ok, "rep"),
        fun _ _ => (.ok, "cert"), "ca-cert", fun _ => [], false⟩
      (⟨true, .ok⟩ : ScopedLeaderSharedLock)
      [⟨"ts-1", 1, ⟨["host-a"], "1.4"⟩, 17, 2⟩]
      ⟨⟨"ts-1", 1⟩, none, 5, none, none, none⟩).registry =
      [⟨"ts-1", 1, ⟨["host-a"], "1.4"⟩, 100, 5⟩] := by
  have h := heartbeat_bare_refreshes_soft_state
    ⟨⟨"master-0", 1⟩, 100, "krb-user", fun _ _ => (.ok, "rep"),
      fun _ _ => (.ok, "cert"), "ca-cert", fun _ => [], false⟩
    (⟨true, .ok⟩ : ScopedLeaderSharedLock)
    [⟨"ts-1", 1, ⟨["host-a"], "1.4"⟩, 17, 2⟩]
    ⟨⟨"ts-1", 1⟩, none, 5, none, none, none⟩
    ⟨"ts-1", 1, ⟨["host-a"], "1.4"⟩, 17, 2⟩
    rfl rfl (by simp [TSManager.LookupTS])
  rw [h.1]
  rfl

/-- Claim C8: a heartbeat is not atomic on error — when the call
ultimately replies with a transport-level failure (which, after a
successful lookup, can only come from tablet-report processing or CSR
signing), the worker's soft state has already been advanced in the
registry and is not rolled back. -/
theorem heartbeat_failure_keeps_soft_state (env : HeartbeatEnv)
    (l : ScopedLeaderSharedLock) (registry : TSManager)
    (req : TSHeartbeatRequestPB) (desc : TSDescriptor) (s : Status)
    (hInit : l.catalogInitialized = true)
    (hNoReg : req.registration = none)
    (hLookup : registry.LookupTS req.tsInstance = .ok desc)
    (hFail : (MasterServiceImpl.TSHeartbeat env l registry req).rpc = .failure s) :
    (MasterServiceImpl.TSHeartbeat env l registry req).registry =
      registry.writeBack
        ((desc.UpdateHeartbeatTime env.now).setNumLiveReplicas req.numLiveTablets) ∧
    ((desc.UpdateHeartbeatTime env.now).setNumLiveReplicas
      req.numLiveTablets).lastHeartbeat = env.now ∧
    ((desc.UpdateHeartbeatTime env.now).setNumLiveReplicas
      req.numLiveTablets).numLiveReplicas = req.numLiveTablets ∧
    ((MasterServiceImpl.TSHeartbeat env l registry req).reportDelegated = true ∨
      (MasterServiceImpl.TSHeartbeat env l registry req).csrDelegated = true) := by
  have he := TSHeartbeat_lookup_ok env l registry req desc hInit hNoReg hLookup
  rw [he] at hFail ⊢
  exact ⟨(heartbeatStep5_frame env l.isLeader _ _ req _).1, rfl, rfl,
    (heartbeatStep5_frame env l.isLeader _ _ req _).2.2.2.2.2.2 s hFail⟩

/-- Witness for claim C8: a failing tablet report on a leader replies
transport failure while the registry keeps the refreshed timestamp and
replica count. -/
theorem heartbeat_failure_keeps_soft_state_witness :
    (MasterServiceImpl.TSHeartbeat
      ⟨⟨"master-0", 1⟩, 100, "krb-user", fun _ _ => (.err "bad report", ""),
        fun _ _ => (.ok, "cert"), "ca-cert", fun _ => [], false⟩
      (⟨true, .ok⟩ : ScopedLeaderSharedLock)
      [⟨"ts-1", 1, ⟨["host-a"], "1.4"⟩, 17, 2⟩]
      ⟨⟨"ts-1", 1⟩, none, 5, some "report-payload", none, none⟩).registry =
      [⟨"ts-1", 1, ⟨["host-a"], "1.4"⟩, 100, 5⟩] ∧
    (MasterServiceImpl.TSHeartbeat
      ⟨⟨"master-0", 1⟩, 100, "krb-user", fun _ _ => (.err "bad report", ""),
        fun _ _ => (.ok, "cert"), "ca-cert", fun _ => [], false⟩
      (⟨true, .ok⟩ : ScopedLeaderSharedLock)
      [⟨"ts-1", 1, ⟨["host-a"], "1.4"⟩, 17, 2⟩]
      ⟨⟨"ts-1", 1⟩, none, 5, some "report-payload", none, none⟩).reportDelegated = true := by
  have h := heartbeat_failure_keeps_soft_state
    ⟨⟨"master-0", 1⟩, 100, "krb-user", fun _ _ => (.err "bad report", ""),
      fun _ _ => (.ok, "cert"), "ca-cert", fun _ => [], false⟩
    (⟨true, .ok⟩ : ScopedLeaderSharedLock)
    [⟨"ts-1", 1, ⟨["host-a"], "1.4"⟩, 17, 2⟩]
    ⟨⟨"ts-1", 1⟩, none, 5, some "report-payload", none, none⟩
    ⟨"ts-1", 1, ⟨["host-a"], "1.4"⟩, 17, 2⟩
    (Status.err "bad report" |>.CloneAndPrepend "Failed to process tablet report")
    rfl rfl (by simp [TSManager.LookupTS]) rfl
  refine ⟨by rw [h.1]; rfl, ?_⟩
  rcases h.2.2.2 with hrep | hcsr
  · exact hrep
  · cases hcsr

/-- Claim C9: a heartbeat received by a non-leader whose request carries a
tablet report and/or a CSR silently ignores both — nothing is delegated to
the catalog manager or the certificate authority, no error is set, no
report result or certificate is attached — and the call replies success
with the leader flag false after refreshing the worker's soft state. -/
theorem follower_heartbeat_ignores_report_and_csr (env : HeartbeatEnv)
    (l : ScopedLeaderSharedLock) (registry : TSManager)
    (req : TSHeartbeatRequestPB) (desc : TSDescriptor)
    (hInit : l.catalogInitialized = true)
    (hNotLeader : l.leaderStatus.isOk = false)
    (hNoReg : req.registration = none)
    (hLookup : registry.LookupTS req.tsInstance = .ok desc)
    (_hCarries : req.tabletReport.isSome = true ∨ req.csrDer.isSome = true) :
    (MasterServiceImpl.TSHeartbeat env l registry req).reportDelegated = false ∧
    (MasterServiceImpl.TSHeartbeat env l registry req).csrDelegated = false ∧
    (MasterServiceImpl.TSHeartbeat env l registry req).rpc = .success ∧
    (MasterServiceImpl.TSHeartbeat env l registry req).resp.error = none ∧
    (MasterServiceImpl.TSHeartbeat env l registry req).resp.leaderMaster = some false ∧
    (MasterServiceImpl.TSHeartbeat env l registry req).resp.tabletReport = none ∧
    (MasterServiceImpl.TSHeartbeat env l registry req).resp.signedCertDer = none ∧
    (MasterServiceImpl.TSHeartbeat env l registry req).resp.caCertDer = [] ∧
    (MasterServiceImpl.TSHeartbeat env l registry req).registry =
      registry.writeBack
        ((desc.UpdateHeartbeatTime env.now).setNumLiveReplicas req.numLiveTablets) := by
  have hiL : l.isLeader = false := by
    simp [ScopedLeaderSharedLock.isLeader, hNotLeader]
  have he := TSHeartbeat_lookup_ok env l registry req desc hInit hNoReg hLookup
  rw [hiL] at he
  rw [he]
  exact ⟨(heartbeatStep5_follower env _ _ req _).2.1,
    (heartbeatStep5_follower env _ _ req _).2.2.1,
    (heartbeatStep5_follower env _ _ req _).1,
    (heartbeatStep5_follower env _ _ req _).2.2.2.2.2.2.1,
    (heartbeatStep5_follower env _ _ req _).2.2.2.2.2.2.2.1,
    (heartbeatStep5_follower env _ _ req _).2.2.2.1,
    (heartbeatStep5_follower env _ _ req _).2.2.2.2.1,
    (heartbeatStep5_follower env _ _ req _).2.2.2.2.2.1,
    (heartbeatStep5_follower env _ _ req _).2.2.2.2.2.2.2.2⟩

/-- Witness for claim C9: a follower receiving a heartbeat with both a
tablet report and a CSR delegates neither, replies success, and still
refreshes the soft state. -/
theorem follower_heartbeat_ignores_witness :
    (MasterServiceImpl.TSHeartbeat
      ⟨⟨"master-0", 1⟩, 100, "krb-user", fun _ _ => (.ok, "rep"),
        fun _ _ => (.ok, "cert"), "ca-cert", fun _ => [], false⟩
      (⟨true, .err "follower"⟩ : ScopedLeaderSharedLock)
      [⟨"ts-1", 1, ⟨["host-a"], "1.4"⟩, 17, 2⟩]
      ⟨⟨"ts-1", 1⟩, none, 5, some "report-payload", some "csr-der", none⟩).reportDelegated = false ∧
    (MasterServiceImpl.TSHeartbeat
      ⟨⟨"master-0", 1⟩, 100, "krb-user", fun _ _ => (.ok, "rep"),
        fun _ _ => (.ok, "cert"), "ca-cert", fun _ => [], false⟩
      (⟨true, .err "follower"⟩ : ScopedLeaderSharedLock)
      [⟨"ts-1", 1, ⟨["host-a"], "1.4"⟩, 17, 2⟩]
      ⟨⟨"ts-1", 1⟩, none, 5, some "report-payload", some "csr-der", none⟩).csrDelegated = false ∧
    (MasterServiceImpl.TSHeartbeat
      ⟨⟨"master-0", 1⟩, 100, "krb-user", fun _ _ => (.ok, "rep"),
        fun _ _ => (.ok, "cert"), "ca-cert", fun _ => [], false⟩
      (⟨true, .err "follower"⟩ : ScopedLeaderSharedLock)
      [⟨"ts-1", 1, ⟨["host-a"], "1.4"⟩, 17, 2⟩]
      ⟨⟨"ts-1", 1⟩, none, 5, some "report-payload", some "csr-der", none⟩).rpc = .success := by
  have h := follower_heartbeat_ignores_report_and_csr
    ⟨⟨"master-0", 1⟩, 100, "krb-user", fun _ _ => (.ok, "rep"),
      fun _ _ => (.ok, "cert"), "ca-cert", fun _ => [], false⟩
    (⟨true, .err "follower"⟩ : ScopedLeaderSharedLock)
    [⟨"ts-1", 1, ⟨["host-a"], "1.4"⟩, 17, 2⟩]
    ⟨⟨"ts-1", 1⟩, none, 5, some "report-payload", some "csr-der", none⟩
    ⟨"ts-1", 1, ⟨["host-a"], "1.4"⟩, 17, 2⟩
    rfl rfl rfl (by simp [TSManager.LookupTS]) (Or.inl rfl)
  exact ⟨h.1, h.2.1, h.2.2.1⟩

/-! ## Reductions of `ConnectToMaster` -/

/-- `ConnectToMaster` on a non-leader: role and peer addresses only. -/
lemma ConnectToMaster_notLeader (l : ScopedLeaderSharedLock) (role : RaftRole)
    (hostports : List String) (caCert : String)
    (generateAuthnToken : String → Status × String) (user : RemoteUser)
    (hInit : l.catalogInitialized = true)
    (hL : l.leaderStatus.isOk = false) :
    MasterServiceImpl.ConnectToMaster l role hostports caCert
        generateAuthnToken user =
      (⟨none, some role, hostports, [], none⟩, .success) := by
  have hg : checkIsInitializedGate l = none := by
    simp [checkIsInitializedGate, hInit]
  unfold MasterServiceImpl.ConnectToMaster
  rw [hg]
  simp [hL, ConnectToMasterResponsePB.empty]

/-- `ConnectToMaster` on a leader for a caller already authenticated by an
authn token: CA certificate but no fresh credential. -/
lemma ConnectToMaster_leader_token (l : ScopedLeaderSharedLock)
    (role : RaftRole) (hostports : List String) (caCert : String)
    (generateAuthnToken : String → Status × String) (user : RemoteUser)
    (hInit : l.catalogInitialized = true)
    (hL : l.leaderStatus.isOk = true)
    (hT : user.authenticatedBy = .AUTHN_TOKEN) :
    MasterServiceImpl.ConnectToMaster l role hostports caCert
        generateAuthnToken user =
      (⟨none, some role, hostports, [caCert], none⟩, .success) := by
  have hg : checkIsInitializedGate l = none := by
    simp [checkIsInitializedGate, hInit]
  unfold MasterServiceImpl.ConnectToMaster
  rw [hg]
  simp [hL, hT, ConnectToMasterResponsePB.empty]

/-- `ConnectToMaster` on a leader for a non-token-authenticated caller
when token generation succeeds: CA certificate plus fresh credential. -/
lemma ConnectToMaster_leader_fresh (l : ScopedLeaderSharedLock)
    (role : RaftRole) (hostports : List String) (caCert : String)
    (generateAuthnToken : String → Status × String) (user : RemoteUser)
    (hInit : l.catalogInitialized = true)
    (hL : l.leaderStatus.isOk = true)
    (hT : user.authenticatedBy ≠ .AUTHN_TOKEN)
    (hOk : (generateAuthnToken user.username).1.isOk = true) :
    MasterServiceImpl.ConnectToMaster l role hostports caCert
        generateAuthnToken user =
      (⟨none, some role, hostports, [caCert],
        some (generateAuthnToken user.username).2⟩, .success) := by
  have hg : checkIsInitializedGate l = none := by
    simp [checkIsInitializedGate, hInit]
  unfold MasterServiceImpl.ConnectToMaster
  rw [hg]
  rcases hgen : generateAuthnToken user.username with ⟨s, tok⟩
  rw [hgen] at hOk
  simp [hL, hT, hgen, hOk, ConnectToMasterResponsePB.empty]

/-- `ConnectToMaster` on a leader for a non-token-authenticated caller
when token generation fails: the failure is swallowed and the call
succeeds with the CA certificate but without a credential. -/
lemma ConnectToMaster_leader_genFail (l : ScopedLeaderSharedLock)
    (role : RaftRole) (hostports : List String) (caCert : String)
    (generateAuthnToken : String → Status × String) (user : RemoteUser)
    (hInit : l.catalogInitialized = true)
    (hL : l.leaderStatus.isOk = true)
    (hT : user.authenticatedBy ≠ .AUTHN_TOKEN)
    (hBad : (generateAuthnToken user.username).1.isOk = false) :
    MasterServiceImpl.ConnectToMaster l role hostports caCert
        generateAuthnToken user =
      (⟨none, some role, hostports, [caCert], none⟩, .success) := by
  have hg : checkIsInitializedGate l = none := by
    simp [checkIsInitializedGate, hInit]
  unfold MasterServiceImpl.ConnectToMaster
  rw [hg]
  rcases hgen : generateAuthnToken user.username with ⟨s, tok⟩
  rw [hgen] at hBad
  simp [hL, hT, hgen, hBad, ConnectToMasterResponsePB.empty]

/-- Claim C6: a gate-passing `ConnectToMaster` always replies success; on
a leader it attaches the CA certificate and a freshly issued authn token
unless the caller already authenticated via a token, a token-generation
failure being swallowed (success without a credential); on a non-leader
neither a CA certificate nor a credential is attached. -/
theorem connectToMaster_credential_policy (l : ScopedLeaderSharedLock)
    (role : RaftRole) (hostports : List String) (caCert : String)
    (generateAuthnToken : String → Status × String) (user : RemoteUser)
    (hInit : l.catalogInitialized = true) :
    (MasterServiceImpl.ConnectToMaster l role hostports caCert
      generateAuthnToken user).2 = .success ∧
    (l.leaderStatus.isOk = true →
      (MasterServiceImpl.ConnectToMaster l role hostports caCert
        generateAuthnToken user).1.caCertDer = [caCert]) ∧
    (l.leaderStatus.isOk = true → user.authenticatedBy ≠ .AUTHN_TOKEN →
      (generateAuthnToken user.username).1.isOk = true →
      (MasterServiceImpl.ConnectToMaster l role hostports caCert
        generateAuthnToken user).1.authnToken =
        some (generateAuthnToken user.username).2) ∧
    (l.leaderStatus.isOk = true → user.authenticatedBy ≠ .AUTHN_TOKEN →
      (generateAuthnToken user.username).1.isOk = false →
      (MasterServiceImpl.ConnectToMaster l role hostports caCert
        generateAuthnToken user).1.authnToken = none) ∧
    (l.leaderStatus.isOk = true → user.authenticatedBy = .AUTHN_TOKEN →
      (MasterServiceImpl.ConnectToMaster l role hostports caCert
        generateAuthnToken user).1.authnToken = none) ∧
    (l.leaderStatus.isOk = false →
      (MasterServiceImpl.ConnectToMaster l role hostports caCert
        generateAuthnToken user).1.caCertDer = [] ∧
      (MasterServiceImpl.ConnectToMaster l role hostports caCert
        generateAuthnToken user).1.authnToken = none) := by
  by_cases hL : l.leaderStatus.isOk = true
  · by_cases hT : user.authenticatedBy = .AUTHN_TOKEN
    · rw [ConnectToMaster_leader_token l role hostports caCert
        generateAuthnToken user hInit hL hT]
      exact ⟨rfl, fun _ => rfl, fun _ hne _ => absurd hT hne,
        fun _ hne _ => absurd hT hne, fun _ _ => rfl,
        fun hf => absurd hf (by simp [hL])⟩
    · by_cases hOk : (generateAuthnToken user.username).1.isOk = true
      · rw [ConnectToMaster_leader_fresh l role hostports caCert
          generateAuthnToken user hInit hL hT hOk]
        exact ⟨rfl, fun _ => rfl, fun _ _ _ => rfl,
          fun _ _ hbad => absurd hOk (by simp [hbad]),
          fun _ ht => absurd ht hT,
          fun hf => absurd hf (by simp [hL])⟩
      · have hBad : (generateAuthnToken user.username).1.isOk = false := by
          simpa using hOk
        rw [ConnectToMaster_leader_genFail l role hostports caCert
          generateAuthnToken user hInit hL hT hBad]
        exact ⟨rfl, fun _ => rfl,
          fun _ _ hok => absurd hok (by simp [hBad]),
          fun _ _ _ => rfl, fun _ ht => absurd ht hT,
          fun hf => absurd hf (by simp [hL])⟩
  · have hL' : l.leaderStatus.isOk = false := by simpa using hL
    rw [ConnectToMaster_notLeader l role hostports caCert
      generateAuthnToken user hInit hL']
    exact ⟨rfl, fun h => absurd h (by simp [hL']),
      fun h _ _ => absurd h (by simp [hL']),
      fun h _ _ => absurd h (by simp [hL']),
      fun h _ => absurd h (by simp [hL']),
      fun _ => ⟨rfl, rfl⟩⟩

/-- Witness for claim C6: a leader answering a certificate-authenticated
caller issues a fresh token; the same leader answering a
token-authenticated caller does not. -/
theorem connectToMaster_credential_witness :
    (MasterServiceImpl.ConnectToMaster (⟨true, .ok⟩ : ScopedLeaderSharedLock)
      .LEADER ["m0:7051"] "ca-cert" (fun u => (.ok, "token-for-" ++ u))
      ⟨"alice", .CLIENT_CERT⟩).1.authnToken = some "token-for-alice" ∧
    (MasterServiceImpl.ConnectToMaster (⟨true, .ok⟩ : ScopedLeaderSharedLock)
      .LEADER ["m0:7051"] "ca-cert" (fun u => (.ok, "token-for-" ++ u))
      ⟨"alice", .AUTHN_TOKEN⟩).1.authnToken = none ∧
    (MasterServiceImpl.ConnectToMaster (⟨true, .err "follower"⟩ : ScopedLeaderSharedLock)
      .FOLLOWER ["m0:7051"] "ca-cert" (fun u => (.ok, "token-for-" ++ u))
      ⟨"alice", .CLIENT_CERT⟩).1.caCertDer = [] := by
  have h1 := connectToMaster_credential_policy
    (⟨true, .ok⟩ : ScopedLeaderSharedLock) .LEADER ["m0:7051"] "ca-cert"
    (fun u => (.ok, "token-for-" ++ u)) ⟨"alice", .CLIENT_CERT⟩ rfl
  have h2 := connectToMaster_credential_policy
    (⟨true, .ok⟩ : ScopedLeaderSharedLock) .LEADER ["m0:7051"] "ca-cert"
    (fun u => (.ok, "token-for-" ++ u)) ⟨"alice", .AUTHN_TOKEN⟩ rfl
  have h3 := connectToMaster_credential_policy
    (⟨true, .err "follower"⟩ : ScopedLeaderSharedLock) .FOLLOWER ["m0:7051"]
    "ca-cert" (fun u => (.ok, "token-for-" ++ u)) ⟨"alice", .CLIENT_CERT⟩ rfl
  refine ⟨?_, h2.2.2.2.2.1 rfl rfl, (h3.2.2.2.2.2 rfl).1⟩
  have := h1.2.2.1 rfl (by intro hx; cases hx) rfl
  rw [this]
  rfl

end KuduMaster
